import Mathlib

/-!
Verification of the tool-invocation bridge of `mcp-azuredevops-bridge`.

This file shallowly embeds the decision logic of the bridge's tool handlers
(`workitems.go`, `tag.go`, `wiki.go` and the sprint handlers): JSON Patch
document construction, the tag set algebra, the WIQL query result cap, batch
update transcripts, relation-index lookups, the wiki selection heuristics and
the sprint request construction.  The remote Azure DevOps service is
represented by oracle functions passed to each handler; every handler returns,
alongside its rendered result, the requests it issued to the remote service,
so that claims of the form "issues no request" are provable.

Go's dynamically typed argument bags (`request.Params.Arguments`) are embedded
as partial maps from parameter names to dynamic values, and Go's two forms of
type assertion are embedded separately: the single-value form `x.(T)` panics
when the value is absent or mistyped, while the two-value form `v, ok := x.(T)`
yields the zero value and `false`.
-/

/-- A dynamically typed argument value, as carried in an MCP argument bag.
Go's `float64` numbers only ever hold work item ids here, so they are embedded
as integers. -/
inductive GoVal where
  | str : String → GoVal
  | num : Int → GoVal
  | bool : Bool → GoVal
deriving DecidableEq

/-- The loosely typed argument bag of a tool invocation. -/
def Args : Type := String → Option GoVal

/-- Outcome of running Go code that may panic: either a value or a panic.
Models the abort caused by a failed single-value type assertion. -/
inductive Panics (α : Type) where
  | ok : α → Panics α
  | panicked : Panics α
deriving DecidableEq

/-- Go single-value type assertion `args[key].(string)`: panics when the key
is absent or the value is not a string. -/
def assertString (args : Args) (key : String) : Panics String :=
  match args key with
  | some (GoVal.str s) => Panics.ok s
  | _ => Panics.panicked

/-- Go single-value type assertion `int(args[key].(float64))`: panics when the
key is absent or the value is not a number. -/
def assertNumber (args : Args) (key : String) : Panics Int :=
  match args key with
  | some (GoVal.num n) => Panics.ok n
  | _ => Panics.panicked

/-- Go two-value type assertion `v, ok := args[key].(string)`: yields the zero
value `""` and `false` when the key is absent or the value is not a string. -/
def getStringOk (args : Args) (key : String) : String × Bool :=
  match args key with
  | some (GoVal.str s) => (s, true)
  | _ => ("", false)

/-- Go two-value type assertion `v, ok := args[key].(bool)`. -/
def getBoolOk (args : Args) (key : String) : Bool × Bool :=
  match args key with
  | some (GoVal.bool b) => (b, true)
  | _ => (false, false)

/-- The result envelope of a tool invocation: rendered text or an error. -/
inductive ToolResult where
  | text : String → ToolResult
  | error : String → ToolResult
deriving DecidableEq

/-- JSON Patch operation kinds used by the bridge. -/
inductive PatchOpKind where
  | add
  | replace
  | remove
deriving DecidableEq

/-- A JSON Patch operation value: either a plain string, or the relation
object literal `{rel, url, attributes: {comment}}` used by relation adds. -/
inductive PatchValue where
  | str : String → PatchValue
  | relationValue : String → String → String → PatchValue
deriving DecidableEq

/-- One operation of a JSON Patch document (`webapi.JsonPatchOperation`).
`remove` operations carry no value. -/
structure JsonPatchOperation where
  op : PatchOpKind
  path : String
  value : Option PatchValue
deriving DecidableEq

/-- A work item relation (`workitemtracking.WorkItemRelation`): type tag and
target URL. -/
structure Relation where
  rel : String
  url : String
deriving DecidableEq

/-- A remote work item as decoded from the service: integer id, field mapping,
and (when expanded) a relation list, `none` embedding Go's nil slice. -/
structure WorkItem where
  id : Int
  fields : List (String × GoVal)
  relations : Option (List Relation)
deriving DecidableEq

/-- Lookup in a work item's field mapping. -/
def lookupField (fields : List (String × GoVal)) (key : String) : Option GoVal :=
  (fields.find? (fun p => p.fst == key)).map (fun p => p.snd)

/-- The process-wide configuration read at startup. -/
structure Config where
  organizationURL : String
  project : String
  personalAccessToken : String

/-- Arguments of `workItemClient.CreateWorkItem`. -/
structure CreateWorkItemArgs where
  itemType : String
  document : List JsonPatchOperation
deriving DecidableEq

/-- Arguments of `workItemClient.UpdateWorkItem`. -/
structure UpdateWorkItemArgs where
  id : Int
  document : List JsonPatchOperation
deriving DecidableEq

/-! ## Go string primitives

Embedded over the character lists underlying `String`, so that all
definitions reduce inside the kernel.  They model the corresponding functions
of Go's `strings` package as used by the bridge. -/

/-- `strings.TrimSpace`: drop leading and trailing whitespace. -/
def goTrimSpace (s : String) : String :=
  String.mk (((s.data.dropWhile Char.isWhitespace).reverse.dropWhile Char.isWhitespace).reverse)

/-- Splitting a character list on a comma, scanning left to right; this is
the split used for `strings.Split(tagsStr, ",")`. -/
def splitOnCommaChars : List Char → List (List Char)
  | [] => [[]]
  | ',' :: rest => [] :: splitOnCommaChars rest
  | c :: rest =>
    match splitOnCommaChars rest with
    | [] => [[c]]
    | g :: gs => (c :: g) :: gs

/-- `strings.Split(s, ",")`. -/
def goSplitComma (s : String) : List String :=
  (splitOnCommaChars s.data).map String.mk

/-- Splitting a character list on the two-character separator `"; "`, scanning
left to right with non-overlapping matches, as `strings.Split` does. -/
def splitOnSemiSpaceChars : List Char → List (List Char)
  | [] => [[]]
  | ';' :: ' ' :: rest => [] :: splitOnSemiSpaceChars rest
  | c :: rest =>
    match splitOnSemiSpaceChars rest with
    | [] => [[c]]
    | g :: gs => (c :: g) :: gs

/-- `strings.Split(s, "; ")`. -/
def goSplitSemiSpace (s : String) : List String :=
  (splitOnSemiSpaceChars s.data).map String.mk

/-- `strings.ToLower`. -/
def goToLower (s : String) : String :=
  String.mk (s.data.map Char.toLower)

/-- `strings.Replace(s, " ", "", -1)`: remove every space. -/
def goStripSpaces (s : String) : String :=
  String.mk (s.data.filter (fun c => !(c == ' ')))

/-- `strings.Contains(s, pattern)` on character lists. -/
def containsCharSub (pattern : List Char) : List Char → Bool
  | [] => pattern.isEmpty
  | c :: rest => pattern.isPrefixOf (c :: rest) || containsCharSub pattern rest

/-- `strings.Contains(s, pattern)`. -/
def goStringContains (s pattern : String) : Bool :=
  containsCharSub pattern.data s.data

/-! ## Tag set algebra (`tag.go`, handleManageWorkItemTags) -/

/-- The `add` branch of `handleManageWorkItemTags`: both the current tags and
the incoming tags are trimmed and inserted into a Go map used as a set; the
result is the key set of that map.  Go map iteration order is unspecified, so
the result is embedded as a `Finset`. -/
def addTags (currentTags incoming : List String) : Finset String :=
  (currentTags.map goTrimSpace ++ incoming.map goTrimSpace).toFinset

/-- The `remove` branch of `handleManageWorkItemTags`: the incoming tags are
trimmed into a set, and the current tags whose trimmed form is in that set are
dropped (the kept tags stay untrimmed and in order). -/
def removeTags (currentTags incoming : List String) : List String :=
  currentTags.filter (fun t => !((incoming.map goTrimSpace).contains (goTrimSpace t)))

/-- The current tag list of a work item: the `System.Tags` field split on
`"; "` when it is a nonempty string, and empty otherwise. -/
def parseCurrentTags (wi : WorkItem) : List String :=
  match lookupField wi.fields "System.Tags" with
  | some (GoVal.str s) => if s ≠ "" then goSplitSemiSpace s else []
  | _ => []

/-- `handleManageWorkItemTags` (tag.go).  `getWorkItem` and `updateWorkItem`
are the remote service; `linearize` chooses the iteration order of the Go tag
map in the `add` branch.  Returns the result and the update requests issued. -/
def handleManageWorkItemTags (args : Args)
    (getWorkItem : Int → Except String WorkItem)
    (updateWorkItem : UpdateWorkItemArgs → Except String WorkItem)
    (linearize : Finset String → List String) :
    Panics (ToolResult × List UpdateWorkItemArgs) :=
  match assertNumber args "id" with
  | Panics.panicked => Panics.panicked
  | Panics.ok id =>
  match assertString args "operation" with
  | Panics.panicked => Panics.panicked
  | Panics.ok operation =>
  match assertString args "tags" with
  | Panics.panicked => Panics.panicked
  | Panics.ok tagsStr =>
    let tags := goSplitComma tagsStr
    match getWorkItem id with
    | Except.error e => Panics.ok (ToolResult.error ("Failed to get work item: " ++ e), [])
    | Except.ok wi =>
      let currentTags := parseCurrentTags wi
      let newTags : List String :=
        if operation = "add" then linearize (addTags currentTags tags)
        else if operation = "remove" then removeTags currentTags tags
        else []
      let ua : UpdateWorkItemArgs :=
        ⟨id, [⟨PatchOpKind.replace, "/fields/System.Tags",
               some (PatchValue.str (String.intercalate "; " newTags))⟩]⟩
      match updateWorkItem ua with
      | Except.error e => Panics.ok (ToolResult.error ("Failed to update tags: " ++ e), [ua])
      | Except.ok _ =>
          Panics.ok (ToolResult.text
            ("Successfully " ++ operation ++ "d tags for work item #" ++ toString id), [ua])

/-! ## Work item handlers (`workitems.go`) -/

/-- The argument bag of a `create_work_item` invocation carrying the declared
string arguments, with the optional priority present exactly when supplied. -/
def mkCreateArgBag (ty title description : String) (priority : Option String) : Args :=
  fun k =>
    if k = "type" then some (GoVal.str ty)
    else if k = "title" then some (GoVal.str title)
    else if k = "description" then some (GoVal.str description)
    else if k = "priority" then priority.map GoVal.str
    else none

/-- `handleCreateWorkItem` (workitems.go).  `createWorkItem` is the remote
service; the posted `CreateWorkItemArgs` are returned alongside the result. -/
def handleCreateWorkItem (args : Args)
    (createWorkItem : CreateWorkItemArgs → Except String WorkItem) :
    Panics (ToolResult × CreateWorkItemArgs) :=
  match assertString args "type" with
  | Panics.panicked => Panics.panicked
  | Panics.ok workItemType =>
  match assertString args "title" with
  | Panics.panicked => Panics.panicked
  | Panics.ok title =>
  match assertString args "description" with
  | Panics.panicked => Panics.panicked
  | Panics.ok description =>
    let (priority, hasPriority) := getStringOk args "priority"
    let baseDoc : List JsonPatchOperation :=
      [⟨PatchOpKind.add, "/fields/System.Title", some (PatchValue.str title)⟩,
       ⟨PatchOpKind.add, "/fields/System.Description", some (PatchValue.str description)⟩]
    let doc :=
      if hasPriority then
        baseDoc ++ [⟨PatchOpKind.add, "/fields/Microsoft.VSTS.Common.Priority",
                     some (PatchValue.str priority)⟩]
      else baseDoc
    let createArgs : CreateWorkItemArgs := ⟨workItemType, doc⟩
    match createWorkItem createArgs with
    | Except.error e =>
        Panics.ok (ToolResult.error ("Failed to create work item: " ++ e), createArgs)
    | Except.ok wi =>
        let extractedTitle :=
          match lookupField wi.fields "System.Title" with
          | some (GoVal.str t) => t
          | _ => ""
        let i := wi.id
        Panics.ok (ToolResult.text s!"Created work item #{i}: {extractedTitle}", createArgs)

/-- `handleUpdateWorkItem` (workitems.go).  The id, field and value arguments
are read with single-value type assertions and therefore panic when absent or
mistyped. -/
def handleUpdateWorkItem (args : Args)
    (updateWorkItem : UpdateWorkItemArgs → Except String WorkItem) :
    Panics ToolResult :=
  match assertNumber args "id" with
  | Panics.panicked => Panics.panicked
  | Panics.ok id =>
  match assertString args "field" with
  | Panics.panicked => Panics.panicked
  | Panics.ok field =>
  match assertString args "value" with
  | Panics.panicked => Panics.panicked
  | Panics.ok value =>
    let ua : UpdateWorkItemArgs :=
      ⟨id, [⟨PatchOpKind.replace, "/fields/" ++ field, some (PatchValue.str value)⟩]⟩
    match updateWorkItem ua with
    | Except.error e => Panics.ok (ToolResult.error ("Failed to update work item: " ++ e))
    | Except.ok wi =>
        let i := wi.id
        Panics.ok (ToolResult.text s!"Updated work item #{i}")

/-! ## WIQL query handler (`workitems.go`, handleQueryWorkItems) -/

/-- A work item reference of a WIQL query result. -/
structure WorkItemReference where
  id : Int
deriving DecidableEq

/-- A WIQL query result; `none` embeds Go's nil `WorkItems` slice. -/
structure WorkItemQueryResult where
  workItems : Option (List WorkItemReference)
deriving DecidableEq

/-- Go's `fmt.Sprintf("%v", value)` on a dynamic field value. -/
def goFormatValue : GoVal → String
  | GoVal.str s => s
  | GoVal.num n => toString n
  | GoVal.bool b => toString b

/-- The count of work items whose details are fetched: the total, capped at
the fixed maximum of 20. -/
def queryFetchCount (refs : List WorkItemReference) : Nat :=
  if refs.length > 20 then 20 else refs.length

/-- The ids whose details are fetched, in result order. -/
def queryIdsToFetch (refs : List WorkItemReference) : List Int :=
  (refs.take (queryFetchCount refs)).map WorkItemReference.id

/-- A detail line `ID: %d - [%s] %s (%s)` of the query transcript, with
missing fields rendered as empty strings. -/
def queryDetailLine (item : WorkItem) : String :=
  let i := item.id
  let title :=
    match lookupField item.fields "System.Title" with
    | some v => goFormatValue v
    | none => ""
  let state :=
    match lookupField item.fields "System.State" with
    | some v => goFormatValue v
    | none => ""
  let workItemType :=
    match lookupField item.fields "System.WorkItemType" with
    | some v => goFormatValue v
    | none => ""
  s!"ID: {i} - [{workItemType}] {title} ({state})"

/-- A bare fallback line `ID: %d` of the query transcript. -/
def queryBareLine (r : WorkItemReference) : String :=
  let i := r.id
  s!"ID: {i}"

/-- The `results` slice built by `handleQueryWorkItems` for a non-empty result
set: a header naming the true total and the capped count, a blank line, then
either one detail line per fetched item, or, when the detail fetch fails or
returns nothing, one bare id line per reference. -/
def queryTranscriptLines (refs : List WorkItemReference)
    (getWorkItems : List Int → Except String (List WorkItem)) : List String :=
  let total := refs.length
  let count := queryFetchCount refs
  let header := s!"Found {total} work items. Showing details for the first {count}:"
  match getWorkItems (queryIdsToFetch refs) with
  | Except.ok items =>
      if items.isEmpty then header :: "" :: refs.map queryBareLine
      else header :: "" :: items.map queryDetailLine
  | Except.error _ => header :: "" :: refs.map queryBareLine

/-- `handleQueryWorkItems` (workitems.go), parameterized by the decoded WIQL
query result and the detail-fetch oracle.  The second component is the id list
passed to `GetWorkItems`, or `none` when no detail fetch is issued. -/
def handleQueryWorkItems (queryResult : WorkItemQueryResult)
    (getWorkItems : List Int → Except String (List WorkItem)) :
    ToolResult × Option (List Int) :=
  match queryResult.workItems with
  | none => (ToolResult.text "No work items found matching the query.", none)
  | some refs =>
    if refs.isEmpty then
      (ToolResult.text "No work items found matching the query.", none)
    else
      let ids := queryIdsToFetch refs
      if ids.isEmpty then (ToolResult.text (String.intercalate "\n" []), none)
      else
        (ToolResult.text (String.intercalate "\n" (queryTranscriptLines refs getWorkItems)),
         some ids)

/-! ## Batch update handler (`workitems.go`, handleBatchUpdateWorkItems) -/

/-- One decoded entry of the `updates` JSON array. -/
structure BatchUpdate where
  id : Int
  field : String
  value : String
deriving DecidableEq

/-- The closed four-alias field map of the batch update path. -/
def fieldMap (field : String) : Option String :=
  if field = "Title" then some "System.Title"
  else if field = "Description" then some "System.Description"
  else if field = "State" then some "System.State"
  else if field = "Priority" then some "Microsoft.VSTS.Common.Priority"
  else none

/-- The single-operation replace document posted for one batch update entry. -/
def batchUpdateArgs (u : BatchUpdate) (systemField : String) : UpdateWorkItemArgs :=
  ⟨u.id, [⟨PatchOpKind.replace, "/fields/" ++ systemField, some (PatchValue.str u.value)⟩]⟩

/-- The transcript line of one batch update entry, as a function of that entry
and of the remote service's response to its own request alone. -/
def batchUpdateLine (remote : UpdateWorkItemArgs → Except String WorkItem)
    (u : BatchUpdate) : String :=
  match fieldMap u.field with
  | none =>
      let i := u.id
      let f := u.field
      s!"Invalid field for #{i}: {f}"
  | some systemField =>
      match remote (batchUpdateArgs u systemField) with
      | Except.error e =>
          let i := u.id
          s!"Failed to update #{i}: {e}"
      | Except.ok wi =>
          let wid := wi.id
          s!"Updated work item #{wid}"

/-- `handleBatchUpdateWorkItems` (workitems.go), parameterized by the decoded
update list and the remote service.  Returns the transcript lines and the
update requests issued, in order. -/
def handleBatchUpdateWorkItems (updates : List BatchUpdate)
    (remote : UpdateWorkItemArgs → Except String WorkItem) :
    List String × List UpdateWorkItemArgs :=
  match updates with
  | [] => ([], [])
  | u :: rest =>
    let tail := handleBatchUpdateWorkItems rest remote
    match fieldMap u.field with
    | none =>
        let i := u.id
        let f := u.field
        (s!"Invalid field for #{i}: {f}" :: tail.fst, tail.snd)
    | some systemField =>
        let ua := batchUpdateArgs u systemField
        match remote ua with
        | Except.error e =>
            let i := u.id
            (s!"Failed to update #{i}: {e}" :: tail.fst, ua :: tail.snd)
        | Except.ok wi =>
            let wid := wi.id
            (s!"Updated work item #{wid}" :: tail.fst, ua :: tail.snd)

/-- A transcript line marking an invalid-field failure: one carrying the
literal marker the handler renders for rejected aliases. -/
def isInvalidFieldLine (l : String) : Bool :=
  "Invalid field for #".data.isPrefixOf l.data

/-! ## Relation management handler (`workitems.go`, handleManageWorkItemRelations) -/

/-- The closed three-way relation type map; Go map lookup yields the zero
value `""` for any other key. -/
def relationTypeMap (rt : String) : String :=
  if rt = "parent" then "System.LinkTypes.Hierarchy-Reverse"
  else if rt = "child" then "System.LinkTypes.Hierarchy-Forward"
  else if rt = "related" then "System.LinkTypes.Related"
  else ""

/-- The target work item URL `%s/_apis/wit/workItems/%d` constructed for
relation adds and removes. -/
def relationTargetUrl (cfg : Config) (targetID : Int) : String :=
  cfg.organizationURL ++ "/_apis/wit/workItems/" ++ toString targetID

/-- The indexed scan of the relation array of the `remove` branch: the
positional index of the first entry whose type tag matches the mapped
relation type and whose URL matches the constructed target URL. -/
def findRelationIndex (azureRelationType targetUrl : String) :
    List Relation → Nat → Option Nat
  | [], _ => none
  | r :: rs, i =>
    if r.rel = azureRelationType ∧ r.url = targetUrl then some i
    else findRelationIndex azureRelationType targetUrl rs (i + 1)

/-- The argument bag of a `manage_work_item_relations` invocation. -/
def mkRelationArgBag (sourceID targetID : Int) (relationType operation : String) : Args :=
  fun k =>
    if k = "source_id" then some (GoVal.num sourceID)
    else if k = "target_id" then some (GoVal.num targetID)
    else if k = "relation_type" then some (GoVal.str relationType)
    else if k = "operation" then some (GoVal.str operation)
    else none

/-- `handleManageWorkItemRelations` (workitems.go).  `getWorkItem` and
`updateWorkItem` are the remote service; the second component of the result
lists the update (Patch) requests issued. -/
def handleManageWorkItemRelations (args : Args) (cfg : Config)
    (getWorkItem : Int → Except String WorkItem)
    (updateWorkItem : UpdateWorkItemArgs → Except String WorkItem) :
    Panics (ToolResult × List UpdateWorkItemArgs) :=
  match assertNumber args "source_id" with
  | Panics.panicked => Panics.panicked
  | Panics.ok sourceID =>
  match assertNumber args "target_id" with
  | Panics.panicked => Panics.panicked
  | Panics.ok targetID =>
  match getStringOk args "relation_type" with
  | (_, false) => Panics.ok (ToolResult.error "Invalid relation_type", [])
  | (relationType, true) =>
  match assertString args "operation" with
  | Panics.panicked => Panics.panicked
  | Panics.ok operation =>
    let azureRelationType := relationTypeMap relationType
    let opsResult : Except ToolResult (List JsonPatchOperation) :=
      if operation = "add" then
        Except.ok [⟨PatchOpKind.add, "/relations/-",
          some (PatchValue.relationValue azureRelationType
            (relationTargetUrl cfg targetID) "Added via MCP")⟩]
      else
        match getWorkItem sourceID with
        | Except.error e => Except.error (ToolResult.error ("Failed to get work item: " ++ e))
        | Except.ok wi =>
          match wi.relations with
          | none => Except.error (ToolResult.error "Work item has no relations")
          | some relations =>
            match findRelationIndex azureRelationType (relationTargetUrl cfg targetID)
                relations 0 with
            | none => Except.error (ToolResult.error "Specified relation not found")
            | some i =>
                Except.ok [⟨PatchOpKind.remove, "/relations/" ++ toString i, none⟩]
    match opsResult with
    | Except.error res => Panics.ok (res, [])
    | Except.ok ops =>
      let ua : UpdateWorkItemArgs := ⟨sourceID, ops⟩
      match updateWorkItem ua with
      | Except.error e =>
          Panics.ok (ToolResult.error ("Failed to update work item relations: " ++ e), [ua])
      | Except.ok _ =>
          Panics.ok (ToolResult.text
            ("Successfully " ++ operation ++ "d " ++ relationType ++ " relationship"), [ua])

/-! ## Wiki selection heuristics (`wiki.go`) -/

/-- A wiki as decoded from the wikis listing: remote-assigned id and display
name. -/
structure AzdoWiki where
  id : String
  name : String
deriving DecidableEq

/-- The selection loop shared by the wiki handlers: start from a default id,
scan the wikis in returned order, and stop at the first one the predicate
accepts. -/
def selectWikiLoop (accepts : AzdoWiki → Bool) : List AzdoWiki → String → String
  | [], chosen => chosen
  | w :: ws, chosen => if accepts w then w.id else selectWikiLoop accepts ws chosen

/-- Wiki match of `handleManageWikiPage`, `handleListWikiPages` and
`handleSearchWiki`: the raw wiki name contains the raw project name. -/
def rawNameMatches (cfg : Config) (w : AzdoWiki) : Bool :=
  goStringContains w.name cfg.project

/-- Wiki match of `handleGetWikiPage`: the lower-cased wiki name contains the
lower-cased space-stripped project name or the literal `"documentation"`. -/
def getPageNameMatches (cfg : Config) (w : AzdoWiki) : Bool :=
  let projectName := goToLower (goStripSpaces cfg.project)
  let wikiName := goToLower w.name
  goStringContains wikiName projectName || goStringContains wikiName "documentation"

/-- The wiki id chosen by `handleGetWikiPage` (wiki.go lines 153-167). -/
def getWikiPageSelectedWiki (cfg : Config) : List AzdoWiki → String
  | [] => ""
  | w :: ws => selectWikiLoop (getPageNameMatches cfg) (w :: ws) w.id

/-- The wiki id chosen by `handleManageWikiPage` (wiki.go lines 94-101). -/
def manageWikiPageSelectedWiki (cfg : Config) : List AzdoWiki → String
  | [] => ""
  | w :: ws => selectWikiLoop (rawNameMatches cfg) (w :: ws) w.id

/-- The wiki id chosen by `handleListWikiPages` (wiki.go lines 264-271). -/
def listWikiPagesSelectedWiki (cfg : Config) : List AzdoWiki → String
  | [] => ""
  | w :: ws => selectWikiLoop (rawNameMatches cfg) (w :: ws) w.id

/-- The wiki id chosen by `handleSearchWiki` (wiki.go lines 365-372). -/
def searchWikiSelectedWiki (cfg : Config) : List AzdoWiki → String
  | [] => ""
  | w :: ws => selectWikiLoop (rawNameMatches cfg) (w :: ws) w.id

/-! ## Sprint handlers (handleGetCurrentSprint, handleGetSprints) -/

/-- One decoded iteration of the sprint listing response; the dates are kept
as their rendered `2006-01-02` forms. -/
structure SprintEntry where
  name : String
  startDate : String
  endDate : String
deriving DecidableEq

/-- The outcome of one HTTP round trip of the sprint handlers: a transport
error, or a status code with a decoded-or-undecodable body. -/
inductive HttpOutcome where
  | transportError : String → HttpOutcome
  | response : Int → Except String (List SprintEntry) → HttpOutcome

/-- The iterations base URL `%s/%s/_apis/work/teamsettings/iterations`. -/
def sprintBaseUrl (cfg : Config) : String :=
  cfg.organizationURL ++ "/" ++ cfg.project ++ "/_apis/work/teamsettings/iterations"

/-- `handleGetCurrentSprint`.  The team argument is read and defaulted but
never used; the request URL carries only the fixed query parameters, in the
sorted percent-encoded form produced by `url.Values.Encode`.  Returns the
constructed URL together with the result. -/
def handleGetCurrentSprint (args : Args) (cfg : Config)
    (http : String → HttpOutcome) : String × ToolResult :=
  let (t, _) := getStringOk args "team"
  let _team := if t = "" then cfg.project ++ " Team" else t
  let fullURL := sprintBaseUrl cfg ++ "?" ++ "%24timeframe=current&api-version=7.2-preview"
  (fullURL,
    match http fullURL with
    | HttpOutcome.transportError e => ToolResult.error ("Failed to get current sprint: " ++ e)
    | HttpOutcome.response status body =>
      if status ≠ 200 then
        ToolResult.error ("Failed to get current sprint. Status: " ++ toString status)
      else
        match body with
        | Except.error e => ToolResult.error ("Failed to parse response: " ++ e)
        | Except.ok [] => ToolResult.text "No active sprint found"
        | Except.ok (sprint :: _) =>
            ToolResult.text ("Current Sprint: " ++ sprint.name
              ++ "\nStart Date: " ++ sprint.startDate
              ++ "\nEnd Date: " ++ sprint.endDate))

/-- The sprint line `Sprint: %s\nStart: %s\nEnd: %s\n---` of `get_sprints`. -/
def sprintListLine (sprint : SprintEntry) : String :=
  "Sprint: " ++ sprint.name ++ "\nStart: " ++ sprint.startDate
    ++ "\nEnd: " ++ sprint.endDate ++ "\n---"

/-- `handleGetSprints`.  The team argument is read and defaulted but never
used; only `include_completed` affects the query string.  Returns the
constructed URL together with the result. -/
def handleGetSprints (args : Args) (cfg : Config)
    (http : String → HttpOutcome) : String × ToolResult :=
  let (t, _) := getStringOk args "team"
  let (includeCompleted, _) := getBoolOk args "include_completed"
  let _team := if t = "" then cfg.project ++ " Team" else t
  let queryString :=
    if !includeCompleted then "%24timeframe=current%2Cfuture&api-version=7.2-preview"
    else "api-version=7.2-preview"
  let fullURL := sprintBaseUrl cfg ++ "?" ++ queryString
  (fullURL,
    match http fullURL with
    | HttpOutcome.transportError e => ToolResult.error ("Failed to get sprints: " ++ e)
    | HttpOutcome.response status body =>
      if status ≠ 200 then
        ToolResult.error ("Failed to get sprints. Status: " ++ toString status)
      else
        match body with
        | Except.error e => ToolResult.error ("Failed to parse response: " ++ e)
        | Except.ok sprints =>
            if sprints.isEmpty then ToolResult.text "No sprints found"
            else ToolResult.text (String.intercalate "\n" (sprints.map sprintListLine)))

/-- The argument bag of an `update_work_item` or `manage_work_item_tags`
invocation built from typed values (used to state the amended claims). -/
def mkTagsArgBag (id : Int) (operation tagsStr : String) : Args :=
  fun k =>
    if k = "id" then some (GoVal.num id)
    else if k = "operation" then some (GoVal.str operation)
    else if k = "tags" then some (GoVal.str tagsStr)
    else none

/-- The argument bag of an `update_work_item` invocation built from typed
values. -/
def mkUpdateArgBag (id : Int) (field value : String) : Args :=
  fun k =>
    if k = "id" then some (GoVal.num id)
    else if k = "field" then some (GoVal.str field)
    else if k = "value" then some (GoVal.str value)
    else none

/-! ## Shared lemmas -/

/-- Appending strings appends their character lists. -/
theorem strData_append (a b : String) : (a ++ b).data = a.data ++ b.data := rfl

/-- A trim-clean tag list plus one clean tag: the `add` branch yields exactly
the set extended by the new tag. -/
theorem addTags_clean (T : List String) (x : String)
    (hT : ∀ t ∈ T, goTrimSpace t = t) (hx : goTrimSpace x = x) :
    addTags T [x] = T.toFinset ∪ {x} := by
  unfold addTags
  have hmapT : T.map goTrimSpace = T := by
    rw [List.map_congr_left hT]
    exact List.map_id T
  simp [hmapT, hx, List.toFinset_append]

/-! ## C3: tag set algebra -/

/-- Claim C3 as stated is false: for `T = ["a"]` and `x = "a"` (already a
member), `remove(add(T, x), x)` is the empty tag set, not `T`.  The add
branch yields the set `{"a"}` whatever iteration order is chosen, and the
remove branch then deletes `"a"`. -/
theorem tag_remove_after_add_counterexample :
    addTags ["a"] ["a"] = (["a"] : List String).toFinset
    ∧ removeTags ["a"] ["a"] = []
    ∧ (([] : List String).toFinset ≠ (["a"] : List String).toFinset) := by
  refine ⟨by decide, by decide, by decide⟩

/-- Claim C3, amended: over trim-clean tags (each equal to its trimmed form,
as produced by the handler itself), adding a tag already present leaves the
tag set unchanged as a set, removing an absent tag leaves the list unchanged,
and for a tag x NOT already in T, removing x after adding it restores T as a
set, whatever order the add branch emitted. -/
theorem tag_set_operations_algebra (T : List String) (x : String)
    (hT : ∀ t ∈ T, goTrimSpace t = t) (hx : goTrimSpace x = x) :
    (x ∈ T → addTags T [x] = T.toFinset)
  ∧ (x ∉ T → removeTags T [x] = T)
  ∧ (x ∉ T → ∀ L : List String, L.toFinset = addTags T [x] →
      (removeTags L [x]).toFinset = T.toFinset) := by
  refine ⟨?_, ?_, ?_⟩
  · intro hmem
    rw [addTags_clean T x hT hx]
    rw [Finset.union_eq_left]
    simpa using hmem
  · intro hnot
    unfold removeTags
    rw [List.filter_eq_self]
    intro a ha
    have hga : goTrimSpace a = a := hT a ha
    have hne : a ≠ x := fun h => hnot (h ▸ ha)
    simp [hga, hx, hne]
  · intro hnot L hL
    rw [addTags_clean T x hT hx] at hL
    unfold removeTags
    rw [List.toFinset_filter]
    ext a
    simp only [Finset.mem_filter, List.mem_toFinset, hL]
    constructor
    · rintro ⟨hmemL, hp⟩
      rcases Finset.mem_union.mp hmemL with h | h
      · exact List.mem_toFinset.mp h
      · exfalso
        have hax : a = x := Finset.mem_singleton.mp h
        have hga : goTrimSpace a = a := by rw [hax]; exact hx
        simp [hga, hx, hax] at hp
    · intro hmemT
      refine ⟨Finset.mem_union_left _ (List.mem_toFinset.mpr hmemT), ?_⟩
      have hga : goTrimSpace a = a := hT a hmemT
      have hne : a ≠ x := fun h => hnot (h ▸ hmemT)
      simp [hga, hx, hne]

/-- Witness for the amended claim C3 at concrete tag sets. -/
theorem tag_set_operations_algebra_witness :
    addTags ["a", "b"] ["a"] = (["a", "b"] : List String).toFinset
    ∧ removeTags ["a", "b"] ["c"] = ["a", "b"]
    ∧ (removeTags ["b", "a", "c"] ["c"]).toFinset = (["a", "b"] : List String).toFinset := by
  refine ⟨?_, ?_, ?_⟩
  · exact (tag_set_operations_algebra ["a", "b"] "a" (by decide) (by decide)).1 (by decide)
  · exact (tag_set_operations_algebra ["a", "b"] "c" (by decide) (by decide)).2.1 (by decide)
  · exact (tag_set_operations_algebra ["a", "b"] "c" (by decide) (by decide)).2.2 (by decide)
      ["b", "a", "c"] (by decide)

/-! ## C10: unknown tag operation erases the tag set -/

/-- Claim C10: an operation string other than add and remove falls through
the switch with an empty new tag list, so the handler replaces
`/fields/System.Tags` with the empty string (erasing every existing tag of
the work item) and reports success, with no input-validation error. -/
theorem manageTags_unknown_operation_erases_tags (i : Int) (operation tagsStr : String)
    (getWorkItem : Int → Except String WorkItem)
    (updateWorkItem : UpdateWorkItemArgs → Except String WorkItem)
    (linearize : Finset String → List String) (wi wi2 : WorkItem)
    (hop1 : operation ≠ "add") (hop2 : operation ≠ "remove")
    (hget : getWorkItem i = Except.ok wi)
    (hupd : ∀ ua, updateWorkItem ua = Except.ok wi2) :
    handleManageWorkItemTags (mkTagsArgBag i operation tagsStr)
        getWorkItem updateWorkItem linearize
      = Panics.ok
          (ToolResult.text ("Successfully " ++ operation ++ "d tags for work item #" ++ toString i),
           [⟨i, [⟨PatchOpKind.replace, "/fields/System.Tags", some (PatchValue.str "")⟩]⟩]) := by
  have hempty : String.intercalate "; " [] = "" := rfl
  unfold handleManageWorkItemTags mkTagsArgBag assertNumber assertString
  simp [hget, hupd, hop1, hop2, hempty]

/-- Witness for claim C10 at a concrete invocation with operation
`"replace"` and a work item carrying existing tags. -/
theorem manageTags_unknown_operation_erases_tags_witness :
    handleManageWorkItemTags (mkTagsArgBag 7 "replace" "x,y")
        (fun _ => Except.ok ⟨7, [("System.Tags", GoVal.str "old1; old2")], none⟩)
        (fun _ => Except.ok ⟨7, [], none⟩)
        (fun s => s.sort (fun a b => a ≤ b))
      = Panics.ok
          (ToolResult.text "Successfully replaced tags for work item #7",
           [⟨7, [⟨PatchOpKind.replace, "/fields/System.Tags", some (PatchValue.str "")⟩]⟩]) := by
  have h := manageTags_unknown_operation_erases_tags 7 "replace" "x,y"
    (fun _ => Except.ok ⟨7, [("System.Tags", GoVal.str "old1; old2")], none⟩)
    (fun _ => Except.ok ⟨7, [], none⟩)
    (fun s => s.sort (fun a b => a ≤ b))
    ⟨7, [("System.Tags", GoVal.str "old1; old2")], none⟩ ⟨7, [], none⟩
    (by decide) (by decide) rfl (fun _ => rfl)
  simpa using h

/-! ## C2: argument assertion behavior -/

/-- Claim C2 as stated is false: invoking `update_work_item` with an empty
argument bag makes the handler panic on the unchecked `float64` type
assertion for the missing id, instead of returning an Error result. -/
theorem updateWorkItem_missing_id_panics :
    handleUpdateWorkItem (fun _ => none) (fun _ => Except.error "unreachable")
      = Panics.panicked := rfl

/-- Claim C2, amended: arguments read with two-value type assertions default
to zero values (create_work_item runs fine with its optional priority
absent), but arguments read with single-value assertions, such as the id,
field and value of update_work_item, abort the handler when absent or
mistyped: update_work_item returns a result exactly when all three are
present with their asserted dynamic types. -/
theorem handler_argument_assertion_behavior (args : Args)
    (remote : UpdateWorkItemArgs → Except String WorkItem) :
    (handleUpdateWorkItem args remote ≠ Panics.panicked ↔
      ((∃ n, args "id" = some (GoVal.num n))
        ∧ (∃ f, args "field" = some (GoVal.str f))
        ∧ (∃ v, args "value" = some (GoVal.str v))))
    ∧ (∀ ty title description (create : CreateWorkItemArgs → Except String WorkItem),
        handleCreateWorkItem (mkCreateArgBag ty title description none) create
          ≠ Panics.panicked) := by
  constructor
  · rcases hid : args "id" with _ | vid
    · simp [handleUpdateWorkItem, assertNumber, hid]
    · rcases vid with s | n | b
      · simp [handleUpdateWorkItem, assertNumber, hid]
      · rcases hfield : args "field" with _ | vf
        · simp [handleUpdateWorkItem, assertNumber, assertString, hid, hfield]
        · rcases vf with f | m | b2
          · rcases hvalue : args "value" with _ | vv
            · simp [handleUpdateWorkItem, assertNumber, assertString, hid, hfield, hvalue]
            · rcases vv with v | m2 | b3
              · rcases hrem : remote ⟨n, [⟨PatchOpKind.replace, "/fields/" ++ f,
                    some (PatchValue.str v)⟩]⟩ with e | wi <;>
                  simp [handleUpdateWorkItem, assertNumber, assertString,
                    hid, hfield, hvalue, hrem]
              · simp [handleUpdateWorkItem, assertNumber, assertString, hid, hfield, hvalue]
              · simp [handleUpdateWorkItem, assertNumber, assertString, hid, hfield, hvalue]
          · simp [handleUpdateWorkItem, assertNumber, assertString, hid, hfield]
          · simp [handleUpdateWorkItem, assertNumber, assertString, hid, hfield]
      · simp [handleUpdateWorkItem, assertNumber, hid]
  · intro ty title description create
    rcases hc : create ⟨ty,
        [⟨PatchOpKind.add, "/fields/System.Title", some (PatchValue.str title)⟩,
         ⟨PatchOpKind.add, "/fields/System.Description", some (PatchValue.str description)⟩]⟩
      with e | wi <;>
      simp [handleCreateWorkItem, mkCreateArgBag, assertString, getStringOk, hc]

/-- Witness for the amended claim C2: with id, field and value present and
typed, update_work_item returns a result, and create_work_item runs without
its optional priority. -/
theorem handler_argument_assertion_behavior_witness :
    (handleUpdateWorkItem (mkUpdateArgBag 5 "State" "Closed") (fun _ => Except.error "down")
        ≠ Panics.panicked)
    ∧ (handleCreateWorkItem (mkCreateArgBag "Bug" "t" "d" none) (fun _ => Except.error "down")
        ≠ Panics.panicked) := by
  constructor
  · exact (handler_argument_assertion_behavior (mkUpdateArgBag 5 "State" "Closed")
      (fun _ => Except.error "down")).1.mpr ⟨⟨5, rfl⟩, ⟨"State", rfl⟩, ⟨"Closed", rfl⟩⟩
  · exact (handler_argument_assertion_behavior (fun _ => none)
      (fun _ => Except.error "down")).2 "Bug" "t" "d" (fun _ => Except.error "down")

/-! ## C1: create_work_item patch document shape -/

/-- Claim C1: for every title, description and optional priority, the handler
returns a result, and the Patch document it posts opens with an add of
`/fields/System.Title` carrying the given title and an add of
`/fields/System.Description` carrying the given description, and carries an
add of `/fields/Microsoft.VSTS.Common.Priority` exactly when a priority was
supplied (then as a third trailing operation). -/
theorem createWorkItem_patch_document_shape (ty title description : String)
    (priority : Option String)
    (create : CreateWorkItemArgs → Except String WorkItem) :
    (handleCreateWorkItem (mkCreateArgBag ty title description priority) create
        ≠ Panics.panicked)
    ∧ (∀ res ca,
        handleCreateWorkItem (mkCreateArgBag ty title description priority) create
          = Panics.ok (res, ca) →
        ca.document.get? 0
            = some ⟨PatchOpKind.add, "/fields/System.Title", some (PatchValue.str title)⟩
        ∧ ca.document.get? 1
            = some ⟨PatchOpKind.add, "/fields/System.Description",
                some (PatchValue.str description)⟩
        ∧ ((∃ p, (⟨PatchOpKind.add, "/fields/Microsoft.VSTS.Common.Priority",
              some (PatchValue.str p)⟩ : JsonPatchOperation) ∈ ca.document) ↔ priority.isSome)
        ∧ (∀ p, priority = some p →
            ca.document
              = [⟨PatchOpKind.add, "/fields/System.Title", some (PatchValue.str title)⟩,
                 ⟨PatchOpKind.add, "/fields/System.Description",
                  some (PatchValue.str description)⟩,
                 ⟨PatchOpKind.add, "/fields/Microsoft.VSTS.Common.Priority",
                  some (PatchValue.str p)⟩])
        ∧ (priority = none →
            ca.document
              = [⟨PatchOpKind.add, "/fields/System.Title", some (PatchValue.str title)⟩,
                 ⟨PatchOpKind.add, "/fields/System.Description",
                  some (PatchValue.str description)⟩])) := by
  rcases priority with _ | p
  · rcases hc : create ⟨ty,
        [⟨PatchOpKind.add, "/fields/System.Title", some (PatchValue.str title)⟩,
         ⟨PatchOpKind.add, "/fields/System.Description", some (PatchValue.str description)⟩]⟩
      with e | wi <;>
    · constructor
      · simp [handleCreateWorkItem, mkCreateArgBag, assertString, getStringOk, hc]
      · intro res ca hca
        simp [handleCreateWorkItem, mkCreateArgBag, assertString, getStringOk, hc] at hca
        rw [← hca.2]
        refine ⟨rfl, rfl, ?_, ?_, ?_⟩ <;> simp
  · rcases hc : create ⟨ty,
        [⟨PatchOpKind.add, "/fields/System.Title", some (PatchValue.str title)⟩,
         ⟨PatchOpKind.add, "/fields/System.Description", some (PatchValue.str description)⟩,
         ⟨PatchOpKind.add, "/fields/Microsoft.VSTS.Common.Priority",
          some (PatchValue.str p)⟩]⟩
      with e | wi <;>
    · constructor
      · simp [handleCreateWorkItem, mkCreateArgBag, assertString, getStringOk, hc]
      · intro res ca hca
        simp [handleCreateWorkItem, mkCreateArgBag, assertString, getStringOk, hc] at hca
        rw [← hca.2]
        refine ⟨rfl, rfl, ?_, ?_, ?_⟩ <;> simp

/-- Witness for claim C1 at a concrete invocation with a supplied priority:
the posted document is exactly title, description, then priority. -/
theorem createWorkItem_patch_document_shape_witness :
    (handleCreateWorkItem (mkCreateArgBag "Task" "T" "D" (some "2"))
        (fun _ => Except.error "down") ≠ Panics.panicked)
    ∧ ([⟨PatchOpKind.add, "/fields/System.Title", some (PatchValue.str "T")⟩,
        ⟨PatchOpKind.add, "/fields/System.Description", some (PatchValue.str "D")⟩,
        ⟨PatchOpKind.add, "/fields/Microsoft.VSTS.Common.Priority",
         some (PatchValue.str "2")⟩] : List JsonPatchOperation).get? 0
        = some ⟨PatchOpKind.add, "/fields/System.Title", some (PatchValue.str "T")⟩ := by
  have h := createWorkItem_patch_document_shape "Task" "T" "D" (some "2")
    (fun _ => Except.error "down")
  refine ⟨h.1, ?_⟩
  have h2 := h.2 (ToolResult.error "Failed to create work item: down")
    ⟨"Task",
     [⟨PatchOpKind.add, "/fields/System.Title", some (PatchValue.str "T")⟩,
      ⟨PatchOpKind.add, "/fields/System.Description", some (PatchValue.str "D")⟩,
      ⟨PatchOpKind.add, "/fields/Microsoft.VSTS.Common.Priority",
       some (PatchValue.str "2")⟩]⟩ (by decide)
  exact h2.1

/-! ## C8: create_work_item echoes the response -/

/-- Claim C8: on success the rendered text is
`Created work item #<id>: <title>` with both the id and the title taken from
the remote service's response (the response's `System.Title` field, not the
caller's input title). -/
theorem createWorkItem_echoes_response (ty title description : String)
    (priority : Option String)
    (create : CreateWorkItemArgs → Except String WorkItem)
    (wi : WorkItem) (rid : Int) (rt : String)
    (hremote : ∀ ca, create ca = Except.ok wi)
    (hid : wi.id = rid)
    (htitle : lookupField wi.fields "System.Title" = some (GoVal.str rt)) :
    ∃ ca,
      handleCreateWorkItem (mkCreateArgBag ty title description priority) create
        = Panics.ok (ToolResult.text s!"Created work item #{rid}: {rt}", ca) := by
  rcases priority with _ | p
  · refine ⟨⟨ty,
      [⟨PatchOpKind.add, "/fields/System.Title", some (PatchValue.str title)⟩,
       ⟨PatchOpKind.add, "/fields/System.Description", some (PatchValue.str description)⟩]⟩, ?_⟩
    simp [handleCreateWorkItem, mkCreateArgBag, assertString, getStringOk,
      hremote, hid, htitle]
  · refine ⟨⟨ty,
      [⟨PatchOpKind.add, "/fields/System.Title", some (PatchValue.str title)⟩,
       ⟨PatchOpKind.add, "/fields/System.Description", some (PatchValue.str description)⟩,
       ⟨PatchOpKind.add, "/fields/Microsoft.VSTS.Common.Priority",
        some (PatchValue.str p)⟩]⟩, ?_⟩
    simp [handleCreateWorkItem, mkCreateArgBag, assertString, getStringOk,
      hremote, hid, htitle]

/-- Witness for claim C8: creating a Bug titled `Login fails` with no
priority against a service echoing id 42 and the same title yields exactly
`Created work item #42: Login fails`. -/
theorem createWorkItem_echoes_response_witness :
    ∃ ca,
      handleCreateWorkItem (mkCreateArgBag "Bug" "Login fails" "NPE on null token" none)
          (fun _ => Except.ok ⟨42, [("System.Title", GoVal.str "Login fails")], none⟩)
        = Panics.ok (ToolResult.text "Created work item #42: Login fails", ca) := by
  have h := createWorkItem_echoes_response "Bug" "Login fails" "NPE on null token" none
    (fun _ => Except.ok ⟨42, [("System.Title", GoVal.str "Login fails")], none⟩)
    ⟨42, [("System.Title", GoVal.str "Login fails")], none⟩ 42 "Login fails"
    (fun _ => rfl) rfl (by decide)
  simpa using h

/-! ## C4: WIQL query empty result and detail cap -/

/-- Claim C4: an empty query result yields the informational text with no
detail fetch; a result with more than 20 items fetches details for exactly
the first 20 ids in result order, and the transcript's header line states the
true total match count. -/
theorem queryWorkItems_empty_and_cap (queryResult : WorkItemQueryResult)
    (getWorkItems : List Int → Except String (List WorkItem)) :
    ((queryResult.workItems = none ∨ queryResult.workItems = some []) →
      handleQueryWorkItems queryResult getWorkItems
        = (ToolResult.text "No work items found matching the query.", none))
    ∧ (∀ refs n, queryResult.workItems = some refs → refs.length = n → n > 20 →
        (handleQueryWorkItems queryResult getWorkItems).2
            = some ((refs.take 20).map WorkItemReference.id)
        ∧ (queryTranscriptLines refs getWorkItems).head?
            = some s!"Found {n} work items. Showing details for the first {20}:") := by
  constructor
  · rintro (h | h) <;> simp [handleQueryWorkItems, h]
  · intro refs n h hn hlen
    have hlen2 : refs.length > 20 := by omega
    have hcount : queryFetchCount refs = 20 := by
      unfold queryFetchCount
      simp [hlen2]
    have hne : refs.isEmpty = false := by
      cases refs with
      | nil => simp at hlen2
      | cons a l => rfl
    have hidsne : (queryIdsToFetch refs).isEmpty = false := by
      unfold queryIdsToFetch
      rw [hcount]
      cases refs with
      | nil => simp at hlen2
      | cons a l => rfl
    have hmapne : (List.map WorkItemReference.id (refs.take 20)).isEmpty = false := by
      cases refs with
      | nil => simp at hlen2
      | cons a l => rfl
    have hrne : refs ≠ [] := by
      cases refs with
      | nil => simp at hlen2
      | cons a l => simp
    constructor
    · simp only [handleQueryWorkItems, h, hne, Bool.false_eq_true,
        if_false, queryIdsToFetch, hcount]
      simp [hmapne, hrne]
    · unfold queryTranscriptLines
      rw [hcount, hn]
      rcases hg : getWorkItems (queryIdsToFetch refs) with e | items
      · simp
      · by_cases hi : items.isEmpty <;> simp [hi]

/-- Witness for claim C4: a query matching 21 items and an empty query, both
against a failing detail fetch. -/
theorem queryWorkItems_empty_and_cap_witness :
    (handleQueryWorkItems ⟨some []⟩ (fun _ => Except.error "down")
        = (ToolResult.text "No work items found matching the query.", none))
    ∧ (handleQueryWorkItems
          ⟨some [⟨1⟩, ⟨2⟩, ⟨3⟩, ⟨4⟩, ⟨5⟩, ⟨6⟩, ⟨7⟩, ⟨8⟩, ⟨9⟩, ⟨10⟩, ⟨11⟩, ⟨12⟩, ⟨13⟩,
                 ⟨14⟩, ⟨15⟩, ⟨16⟩, ⟨17⟩, ⟨18⟩, ⟨19⟩, ⟨20⟩, ⟨21⟩]⟩
          (fun _ => Except.error "down")).2
        = some [1, 2, 3, 4, 5, 6, 7, 8, 9, 10, 11, 12, 13, 14, 15, 16, 17, 18, 19, 20]
    ∧ (queryTranscriptLines
          [⟨1⟩, ⟨2⟩, ⟨3⟩, ⟨4⟩, ⟨5⟩, ⟨6⟩, ⟨7⟩, ⟨8⟩, ⟨9⟩, ⟨10⟩, ⟨11⟩, ⟨12⟩, ⟨13⟩,
           ⟨14⟩, ⟨15⟩, ⟨16⟩, ⟨17⟩, ⟨18⟩, ⟨19⟩, ⟨20⟩, ⟨21⟩]
          (fun _ => Except.error "down")).head?
        = some "Found 21 work items. Showing details for the first 20:" := by
  have h1 := (queryWorkItems_empty_and_cap ⟨some []⟩ (fun _ => Except.error "down")).1
    (Or.inr rfl)
  have h2 := (queryWorkItems_empty_and_cap
      ⟨some [⟨1⟩, ⟨2⟩, ⟨3⟩, ⟨4⟩, ⟨5⟩, ⟨6⟩, ⟨7⟩, ⟨8⟩, ⟨9⟩, ⟨10⟩, ⟨11⟩, ⟨12⟩, ⟨13⟩,
             ⟨14⟩, ⟨15⟩, ⟨16⟩, ⟨17⟩, ⟨18⟩, ⟨19⟩, ⟨20⟩, ⟨21⟩]⟩
      (fun _ => Except.error "down")).2
    [⟨1⟩, ⟨2⟩, ⟨3⟩, ⟨4⟩, ⟨5⟩, ⟨6⟩, ⟨7⟩, ⟨8⟩, ⟨9⟩, ⟨10⟩, ⟨11⟩, ⟨12⟩, ⟨13⟩,
     ⟨14⟩, ⟨15⟩, ⟨16⟩, ⟨17⟩, ⟨18⟩, ⟨19⟩, ⟨20⟩, ⟨21⟩] 21 rfl rfl (by decide)
  refine ⟨h1, ?_, ?_⟩
  · rw [h2.1]
    decide
  · rw [h2.2]
    decide

/-! ## C5: batch update partial failure -/

/-- The invalid-field marker does not occur on failure lines. -/
theorem invalidMarker_not_on_failed (rest : String) :
    isInvalidFieldLine ("Failed to update #" ++ rest) = false := rfl

/-- The invalid-field marker does not occur on success lines. -/
theorem invalidMarker_not_on_updated (rest : String) :
    isInvalidFieldLine ("Updated work item #" ++ rest) = false := rfl

/-- The invalid-field marker occurs on every rendered invalid-field line. -/
theorem invalidMarker_on_invalid (rest : String) :
    isInvalidFieldLine ("Invalid field for #" ++ rest) = true := by
  unfold isInvalidFieldLine
  rw [strData_append]
  simp [ List.isPrefixOf_iff_prefix]

/-- A transcript line is marked invalid-field exactly when its update names a
field outside the alias map. -/
theorem isInvalidFieldLine_batchUpdateLine
    (remote : UpdateWorkItemArgs → Except String WorkItem) (u : BatchUpdate) :
    isInvalidFieldLine (batchUpdateLine remote u) = (fieldMap u.field).isNone := by
  rcases hf : fieldMap u.field with _ | sf
  · have hshape : batchUpdateLine remote u
        = "Invalid field for #" ++ (toString u.id ++ (": " ++ u.field)) := by
      simp [batchUpdateLine, hf, toString, String.append_assoc]
    rw [hshape, invalidMarker_on_invalid]
    rfl
  · rcases hr : remote (batchUpdateArgs u sf) with e | wi
    · have hshape : batchUpdateLine remote u
          = "Failed to update #" ++ (toString u.id ++ (": " ++ e)) := by
        simp [batchUpdateLine, hf, hr, toString, String.append_assoc]
      rw [hshape, invalidMarker_not_on_failed]
      rfl
    · have hshape : batchUpdateLine remote u
          = "Updated work item #" ++ toString wi.id := by
        simp [batchUpdateLine, hf, hr, toString]
      rw [hshape, invalidMarker_not_on_updated]
      rfl

/-- The batch update loop is, line for line, the pointwise rendering of each
update against its own remote response, and its request log keeps exactly the
updates whose field alias is recognized. -/
theorem handleBatchUpdateWorkItems_eq (updates : List BatchUpdate)
    (remote : UpdateWorkItemArgs → Except String WorkItem) :
    handleBatchUpdateWorkItems updates remote
      = (updates.map (batchUpdateLine remote),
         updates.filterMap (fun u => (fieldMap u.field).map (batchUpdateArgs u))) := by
  induction updates with
  | nil => rfl
  | cons u rest ih =>
    unfold handleBatchUpdateWorkItems
    rw [ih]
    unfold batchUpdateLine
    rcases hf : fieldMap u.field with _ | sf
    · simp [hf]
    · rcases hr : remote (batchUpdateArgs u sf) with e | wi <;> simp [hf, hr]

/-- Claim C5: for a batch in which exactly one update names a field outside
the alias map, the transcript has one line per update, exactly one line is an
invalid-field failure, the request log holds exactly the recognized updates
(so the invalid item causes no remote call), and every line is determined by
its own update and that update's own remote response alone. -/
theorem batchUpdate_partial_failure (updates : List BatchUpdate)
    (remote : UpdateWorkItemArgs → Except String WorkItem)
    (hone : updates.countP (fun u => (fieldMap u.field).isNone) = 1) :
    (handleBatchUpdateWorkItems updates remote).1.length = updates.length
    ∧ (handleBatchUpdateWorkItems updates remote).1.countP isInvalidFieldLine = 1
    ∧ (handleBatchUpdateWorkItems updates remote).2
        = updates.filterMap (fun u => (fieldMap u.field).map (batchUpdateArgs u))
    ∧ ∀ i, (handleBatchUpdateWorkItems updates remote).1.get? i
        = (updates.get? i).map (batchUpdateLine remote) := by
  rw [handleBatchUpdateWorkItems_eq]
  refine ⟨by simp, ?_, rfl, by simp⟩
  rw [List.countP_map]
  rw [← hone]
  apply List.countP_congr
  intro u hu
  simp [Function.comp, isInvalidFieldLine_batchUpdateLine]

/-- Witness for claim C5: three updates, the middle one naming the
unrecognized alias `Bogus`, against an echoing remote service. -/
theorem batchUpdate_partial_failure_witness :
    (handleBatchUpdateWorkItems [⟨1, "Title", "x"⟩, ⟨2, "Bogus", "y"⟩, ⟨3, "State", "z"⟩]
        (fun ua => Except.ok ⟨ua.id, [], none⟩)).1.length = 3
    ∧ (handleBatchUpdateWorkItems [⟨1, "Title", "x"⟩, ⟨2, "Bogus", "y"⟩, ⟨3, "State", "z"⟩]
        (fun ua => Except.ok ⟨ua.id, [], none⟩)).1.countP isInvalidFieldLine = 1
    ∧ (handleBatchUpdateWorkItems [⟨1, "Title", "x"⟩, ⟨2, "Bogus", "y"⟩, ⟨3, "State", "z"⟩]
        (fun ua => Except.ok ⟨ua.id, [], none⟩)).2
        = [⟨1, [⟨PatchOpKind.replace, "/fields/System.Title", some (PatchValue.str "x")⟩]⟩,
           ⟨3, [⟨PatchOpKind.replace, "/fields/System.State", some (PatchValue.str "z")⟩]⟩]
    ∧ (handleBatchUpdateWorkItems [⟨1, "Title", "x"⟩, ⟨2, "Bogus", "y"⟩, ⟨3, "State", "z"⟩]
        (fun ua => Except.ok ⟨ua.id, [], none⟩)).1.get? 1
        = some "Invalid field for #2: Bogus" := by
  have h := batchUpdate_partial_failure
    [⟨1, "Title", "x"⟩, ⟨2, "Bogus", "y"⟩, ⟨3, "State", "z"⟩]
    (fun ua => Except.ok ⟨ua.id, [], none⟩) (by decide)
  refine ⟨h.1, h.2.1, ?_, ?_⟩
  · rw [h.2.2.1]
    decide
  · rw [h.2.2.2 1]
    decide

/-! ## C6: relation removal -/

/-- The indexed relation scan of the remove branch agrees with the first
index satisfying the conjunctive match predicate. -/
theorem findRelationIndex_eq_findIdx (a t : String) (rs : List Relation) (i : Nat) :
    findRelationIndex a t rs i
      = List.findIdx? (fun r => r.rel == a && r.url == t) rs i := by
  induction rs generalizing i with
  | nil => rfl
  | cons r rest ih =>
    unfold findRelationIndex
    rw [List.findIdx?_cons]
    by_cases hp : r.rel = a ∧ r.url = t
    · simp [hp.1, hp.2]
    · have hb : (r.rel == a && r.url == t) = false := by
        rcases Decidable.not_and_iff_or_not.mp hp with h | h <;> simp [h]
      rw [if_neg hp, hb]
      simp [ih]

/-- Claim C6: with operation remove, when no relation entry matches both the
mapped relation type and the constructed target URL (or the work item has no
relations), the handler returns an Error and issues no Patch request; when a
match exists, the remove Patch names the positional index of the first
matching entry. -/
theorem manageRelations_remove_not_found_and_index (sourceID targetID : Int)
    (relationType : String) (cfg : Config)
    (getWorkItem : Int → Except String WorkItem)
    (updateWorkItem : UpdateWorkItemArgs → Except String WorkItem)
    (wi : WorkItem)
    (hget : getWorkItem sourceID = Except.ok wi) :
    ((wi.relations = none
        ∨ ∃ rels, wi.relations = some rels
            ∧ ∀ r ∈ rels, ¬(r.rel = relationTypeMap relationType
                ∧ r.url = relationTargetUrl cfg targetID)) →
      ∃ msg,
        handleManageWorkItemRelations
            (mkRelationArgBag sourceID targetID relationType "remove")
            cfg getWorkItem updateWorkItem
          = Panics.ok (ToolResult.error msg, []))
    ∧ (∀ rels i, wi.relations = some rels →
        List.findIdx? (fun r => r.rel == relationTypeMap relationType
            && r.url == relationTargetUrl cfg targetID) rels 0 = some i →
        ∃ res,
          handleManageWorkItemRelations
              (mkRelationArgBag sourceID targetID relationType "remove")
              cfg getWorkItem updateWorkItem
            = Panics.ok (res,
                [⟨sourceID, [⟨PatchOpKind.remove, "/relations/" ++ toString i, none⟩]⟩])) := by
  constructor
  · rintro (h | ⟨rels, h, hnomatch⟩)
    · refine ⟨"Work item has no relations", ?_⟩
      simp [handleManageWorkItemRelations, mkRelationArgBag, assertNumber, assertString,
        getStringOk, hget, h]
    · have hfind : findRelationIndex (relationTypeMap relationType)
          (relationTargetUrl cfg targetID) rels 0 = none := by
        rw [findRelationIndex_eq_findIdx]
        rw [List.findIdx?_eq_none_iff]
        intro r hr
        have := hnomatch r hr
        rcases Decidable.not_and_iff_or_not.mp this with h2 | h2 <;> simp [h2]
      refine ⟨"Specified relation not found", ?_⟩
      simp [handleManageWorkItemRelations, mkRelationArgBag, assertNumber, assertString,
        getStringOk, hget, h, hfind]
  · intro rels i h hidx
    have hfind : findRelationIndex (relationTypeMap relationType)
        (relationTargetUrl cfg targetID) rels 0 = some i := by
      rw [findRelationIndex_eq_findIdx]
      exact hidx
    rcases hu : updateWorkItem
        ⟨sourceID, [⟨PatchOpKind.remove, "/relations/" ++ toString i, none⟩]⟩ with e | wi2
    · refine ⟨ToolResult.error ("Failed to update work item relations: " ++ e), ?_⟩
      simp [handleManageWorkItemRelations, mkRelationArgBag, assertNumber, assertString,
        getStringOk, hget, h, hfind, hu]
    · refine ⟨ToolResult.text ("Successfully removed " ++ relationType ++ " relationship"), ?_⟩
      simp [handleManageWorkItemRelations, mkRelationArgBag, assertNumber, assertString,
        getStringOk, hget, h, hfind, hu]

/-- Witness for claim C6: a work item whose relations hold a non-matching
entry followed by the matching related link, so the remove Patch names index
1; and a work item with no matching entry, so no Patch is issued. -/
theorem manageRelations_remove_witness :
    (∃ msg,
      handleManageWorkItemRelations (mkRelationArgBag 1 2 "related" "remove")
          ⟨"https://dev.azure.com/org", "proj", "pat"⟩
          (fun _ => Except.ok ⟨1, [], some [⟨"System.LinkTypes.Related", "elsewhere"⟩]⟩)
          (fun _ => Except.ok ⟨1, [], none⟩)
        = Panics.ok (ToolResult.error msg, []))
    ∧ (∃ res,
      handleManageWorkItemRelations (mkRelationArgBag 1 2 "related" "remove")
          ⟨"https://dev.azure.com/org", "proj", "pat"⟩
          (fun _ => Except.ok ⟨1, [],
            some [⟨"Other", "https://dev.azure.com/org/_apis/wit/workItems/2"⟩,
                  ⟨"System.LinkTypes.Related",
                   "https://dev.azure.com/org/_apis/wit/workItems/2"⟩]⟩)
          (fun _ => Except.ok ⟨1, [], none⟩)
        = Panics.ok (res,
            [⟨1, [⟨PatchOpKind.remove, "/relations/1", none⟩]⟩])) := by
  constructor
  · exact (manageRelations_remove_not_found_and_index 1 2 "related"
      ⟨"https://dev.azure.com/org", "proj", "pat"⟩
      (fun _ => Except.ok ⟨1, [], some [⟨"System.LinkTypes.Related", "elsewhere"⟩]⟩)
      (fun _ => Except.ok ⟨1, [], none⟩)
      ⟨1, [], some [⟨"System.LinkTypes.Related", "elsewhere"⟩]⟩ rfl).1
      (Or.inr ⟨[⟨"System.LinkTypes.Related", "elsewhere"⟩], rfl, by decide⟩)
  · exact (manageRelations_remove_not_found_and_index 1 2 "related"
      ⟨"https://dev.azure.com/org", "proj", "pat"⟩
      (fun _ => Except.ok ⟨1, [],
        some [⟨"Other", "https://dev.azure.com/org/_apis/wit/workItems/2"⟩,
              ⟨"System.LinkTypes.Related",
               "https://dev.azure.com/org/_apis/wit/workItems/2"⟩]⟩)
      (fun _ => Except.ok ⟨1, [], none⟩)
      ⟨1, [],
       some [⟨"Other", "https://dev.azure.com/org/_apis/wit/workItems/2"⟩,
             ⟨"System.LinkTypes.Related",
              "https://dev.azure.com/org/_apis/wit/workItems/2"⟩]⟩ rfl).2
      [⟨"Other", "https://dev.azure.com/org/_apis/wit/workItems/2"⟩,
       ⟨"System.LinkTypes.Related", "https://dev.azure.com/org/_apis/wit/workItems/2"⟩]
      1 rfl (by decide)

/-! ## C7: wiki selection heuristics -/

/-- The wiki selection loop picks the id of the first accepted wiki, and the
starting default when none is accepted. -/
theorem selectWikiLoop_eq_find (accepts : AzdoWiki → Bool) (ws : List AzdoWiki)
    (chosen : String) :
    selectWikiLoop accepts ws chosen
      = match ws.find? accepts with
        | some w => w.id
        | none => chosen := by
  induction ws with
  | nil => rfl
  | cons w rest ih =>
    unfold selectWikiLoop
    rw [List.find?_cons]
    by_cases hw : accepts w
    · simp [hw]
    · simp only [Bool.not_eq_true] at hw
      simp [hw, ih]

/-- Claim C7: for every non-empty wiki list, `get_wiki_page` selects the
first wiki whose lower-cased name contains the lower-cased space-stripped
project name or the literal `documentation`, and otherwise the first wiki;
`manage_wiki_page`, `list_wiki_pages` and `search_wiki` all select the first
wiki whose raw name contains the raw project name, and otherwise the first
wiki. -/
theorem wiki_selection_heuristics (cfg : Config) (w0 : AzdoWiki) (ws : List AzdoWiki) :
    getWikiPageSelectedWiki cfg (w0 :: ws)
        = (((w0 :: ws).find? (getPageNameMatches cfg)).getD w0).id
    ∧ manageWikiPageSelectedWiki cfg (w0 :: ws)
        = (((w0 :: ws).find? (rawNameMatches cfg)).getD w0).id
    ∧ listWikiPagesSelectedWiki cfg (w0 :: ws)
        = (((w0 :: ws).find? (rawNameMatches cfg)).getD w0).id
    ∧ searchWikiSelectedWiki cfg (w0 :: ws)
        = (((w0 :: ws).find? (rawNameMatches cfg)).getD w0).id := by
  refine ⟨?_, ?_, ?_, ?_⟩
  · show selectWikiLoop (getPageNameMatches cfg) (w0 :: ws) w0.id = _
    rw [selectWikiLoop_eq_find]
    rcases hf : (w0 :: ws).find? (getPageNameMatches cfg) with _ | w <;> simp [hf]
  · show selectWikiLoop (rawNameMatches cfg) (w0 :: ws) w0.id = _
    rw [selectWikiLoop_eq_find]
    rcases hf : (w0 :: ws).find? (rawNameMatches cfg) with _ | w <;> simp [hf]
  · show selectWikiLoop (rawNameMatches cfg) (w0 :: ws) w0.id = _
    rw [selectWikiLoop_eq_find]
    rcases hf : (w0 :: ws).find? (rawNameMatches cfg) with _ | w <;> simp [hf]
  · show selectWikiLoop (rawNameMatches cfg) (w0 :: ws) w0.id = _
    rw [selectWikiLoop_eq_find]
    rcases hf : (w0 :: ws).find? (rawNameMatches cfg) with _ | w <;> simp [hf]

/-- Witness for claim C7 at a concrete project and wiki list: page fetch
picks the wiki named `Team Documentation` (lower-cased match), while the raw
containment rule used by the other handlers picks the wiki literally named
`My Project.wiki`, skipping the first wiki in both cases. -/
theorem wiki_selection_heuristics_witness :
    getWikiPageSelectedWiki ⟨"https://dev.azure.com/org", "My Project", "pat"⟩
        [⟨"w1", "Scratch"⟩, ⟨"w2", "Team Documentation"⟩, ⟨"w3", "My Project.wiki"⟩]
      = "w2"
    ∧ manageWikiPageSelectedWiki ⟨"https://dev.azure.com/org", "My Project", "pat"⟩
        [⟨"w1", "Scratch"⟩, ⟨"w2", "Team Documentation"⟩, ⟨"w3", "My Project.wiki"⟩]
      = "w3" := by
  have h := wiki_selection_heuristics ⟨"https://dev.azure.com/org", "My Project", "pat"⟩
    ⟨"w1", "Scratch"⟩ [⟨"w2", "Team Documentation"⟩, ⟨"w3", "My Project.wiki"⟩]
  refine ⟨?_, ?_⟩
  · rw [h.1]
    decide
  · rw [h.2.1]
    decide

/-! ## C9: the team argument of the sprint handlers is dead -/

/-- Claim C9: two invocations of `get_current_sprint` or `get_sprints` whose
argument bags differ only in the team value construct the same request URL
and return the same result: the team value, including its computed default,
is never used. -/
theorem sprint_handlers_ignore_team (cfg : Config) (http : String → HttpOutcome)
    (args1 args2 : Args)
    (h : ∀ k, k ≠ "team" → args1 k = args2 k) :
    handleGetCurrentSprint args1 cfg http = handleGetCurrentSprint args2 cfg http
    ∧ handleGetSprints args1 cfg http = handleGetSprints args2 cfg http := by
  constructor
  · rfl
  · have hb : getBoolOk args1 "include_completed" = getBoolOk args2 "include_completed" := by
      unfold getBoolOk
      rw [h "include_completed" (by decide)]
    unfold handleGetSprints
    rw [hb]

/-- Witness for claim C9: bags supplying the teams `Alpha` and `Beta` (and
the same `include_completed`) yield identical URLs and results. -/
theorem sprint_handlers_ignore_team_witness :
    handleGetCurrentSprint
        (fun k => if k = "team" then some (GoVal.str "Alpha") else none)
        ⟨"https://dev.azure.com/org", "proj", "pat"⟩
        (fun _ => HttpOutcome.response 200 (Except.ok []))
      = handleGetCurrentSprint
        (fun k => if k = "team" then some (GoVal.str "Beta") else none)
        ⟨"https://dev.azure.com/org", "proj", "pat"⟩
        (fun _ => HttpOutcome.response 200 (Except.ok []))
    ∧ handleGetSprints
        (fun k => if k = "team" then some (GoVal.str "Alpha") else none)
        ⟨"https://dev.azure.com/org", "proj", "pat"⟩
        (fun _ => HttpOutcome.response 200 (Except.ok []))
      = handleGetSprints
        (fun k => if k = "team" then some (GoVal.str "Beta") else none)
        ⟨"https://dev.azure.com/org", "proj", "pat"⟩
        (fun _ => HttpOutcome.response 200 (Except.ok [])) := by
  exact sprint_handlers_ignore_team ⟨"https://dev.azure.com/org", "proj", "pat"⟩
    (fun _ => HttpOutcome.response 200 (Except.ok []))
    (fun k => if k = "team" then some (GoVal.str "Alpha") else none)
    (fun k => if k = "team" then some (GoVal.str "Beta") else none)
    (fun k hk => by simp [hk])
